import Mathlib

/-!
Shallow embedding of the Farm_Connect marketplace application (src/app.py).

The three SQLAlchemy models (User, Product, Order) become structures; the
database session becomes an explicit DB value holding the three relations
plus autoincrement counters.  Each route handler becomes a pure function on
DB; handlers that mutate state return Except Err DB, where an error value
models the flash-and-redirect failure path in which the session is not
committed and the database is left unchanged.  Python ints are Int, SQL
floats are modelled as rationals, and werkzeug password hashing is modelled
as an injective tagging function (no claim depends on hash contents).
-/

namespace FarmConnect

/-- Model of class User (src/app.py lines 19-43). -/
structure User where
  id : Nat
  username : String
  passwordHash : String
  role : String
  name : String
  contactNumber : String
deriving Repr, DecidableEq

/-- Model of class Product (src/app.py lines 45-55).  The quantity column is
an Int because nothing in the code prevents negative values from being
stored. -/
structure Product where
  id : Nat
  farmerId : Nat
  name : String
  description : String
  quantity : Int
  price : ℚ
  imageUrl : String
deriving Repr, DecidableEq

/-- Model of class Order (src/app.py lines 57-64). -/
structure Order where
  id : Nat
  customerId : Nat
  productId : Nat
  quantity : Int
  totalPrice : ℚ
  isNew : Bool
deriving Repr, DecidableEq

/-- The persistent state: three relations plus autoincrement id counters. -/
structure DB where
  users : List User
  products : List Product
  orders : List Order
  nextUserId : Nat
  nextProductId : Nat
  nextOrderId : Nat
deriving Repr, DecidableEq

def emptyDB : DB :=
  { users := [], products := [], orders := [],
    nextUserId := 1, nextProductId := 1, nextOrderId := 1 }

/-- Failure outcomes of the handlers: form-validation rejects, the
duplicate-username reject in register, 403 aborts (role gate or ownership),
the out-of-stock reject, the protected-admin reject, and 404. -/
inductive Err where
  | validation
  | duplicateUsername
  | authorization
  | insufficientStock
  | protectedAccount
  | notFound
deriving Repr, DecidableEq

/-- Does the character list start with the given needle? -/
def matchAt : List Char → List Char → Bool
  | [], _ => true
  | _ :: _, [] => false
  | a :: as, b :: bs => a == b && matchAt as bs

/-- Substring search over character lists. -/
def hasSub (needle : List Char) : List Char → Bool
  | [] => matchAt needle []
  | b :: bs => matchAt needle (b :: bs) || hasSub needle bs

/-- Model of the Python expression (needle in hay). -/
def containsSub (hay needle : String) : Bool :=
  hasSub needle.data hay.data

/-- Model of str.lower(), written over the character list so that it
evaluates inside the kernel. -/
def lowerStr (s : String) : String :=
  ⟨s.data.map Char.toLower⟩

/-- Model of str.strip(): drop leading and trailing whitespace.  Written
over character lists so that it evaluates inside the kernel. -/
def stripStr (s : String) : String :=
  ⟨((s.data.dropWhile Char.isWhitespace).reverse.dropWhile Char.isWhitespace).reverse⟩

/-- Model of werkzeug generate_password_hash: one-way storage whose contents
no claim inspects. -/
def generatePasswordHash (password : String) : String :=
  "hashed:" ++ password

/-- Model of generate_product_image_url (src/app.py lines 85-101). -/
def generate_product_image_url (product_name : String) : String :=
  let name_lower := lowerStr product_name
  if containsSub name_lower "tomato" then "/static/images/ai_tomatoes.jpg"
  else if containsSub name_lower "spinach" then "/static/images/ai_spinach.jpg"
  else if containsSub name_lower "cabbage" then "/static/images/ai_cabbage.jpg"
  else "/static/images/default_ai_product.jpg"

def findUserByName (db : DB) (username : String) : Option User :=
  db.users.find? (fun u => u.username == username)

def findUserById (db : DB) (i : Nat) : Option User :=
  db.users.find? (fun u => u.id == i)

def findProduct (db : DB) (i : Nat) : Option Product :=
  db.products.find? (fun p => p.id == i)

/-- Model of the register POST handler (src/app.py lines 122-151).  Inputs
are the raw form fields; the handler strips username, name and contact. -/
def register (db : DB) (username password role name contact_number : String) :
    Except Err DB :=
  let username := (stripStr username)
  let name := (stripStr name)
  let contact_number := (stripStr contact_number)
  if username = "" ∨ password = "" ∨ (role ≠ "farmer" ∧ role ≠ "customer") ∨
      name = "" ∨ contact_number = "" then
    .error .validation
  else if db.users.any (fun u => u.username == username) then
    .error .duplicateUsername
  else
    let user : User :=
      { id := db.nextUserId, username := username,
        passwordHash := generatePasswordHash password, role := role,
        name := name, contactNumber := contact_number }
    .ok { db with users := db.users ++ [user], nextUserId := db.nextUserId + 1 }

/-- Point update of every list element satisfying a predicate; with unique
ids this models SQLAlchemy mutating the row fetched by primary key. -/
def updateBy (p : α → Bool) (f : α → α) (l : List α) : List α :=
  l.map (fun x => if p x then f x else x)

/-- Model of the add_product POST handler (src/app.py lines 216-238),
including the role_required farmer gate.  quantity and price are the already
parsed form numbers. -/
def add_product (db : DB) (requester : User) (name description : String)
    (quantity : Int) (price : ℚ) (image_url : String) : Except Err DB :=
  if requester.role ≠ "farmer" then .error .authorization
  else
    let name := (stripStr name)
    let description := (stripStr description)
    let image_url := (stripStr image_url)
    if name = "" then .error .validation
    else
      let image_url := if image_url = "" then generate_product_image_url name else image_url
      let p : Product :=
        { id := db.nextProductId, farmerId := requester.id, name := name,
          description := description, quantity := quantity, price := price,
          imageUrl := image_url }
      .ok { db with products := db.products ++ [p],
                    nextProductId := db.nextProductId + 1 }

/-- Model of the edit_product POST handler (src/app.py lines 240-263): role
gate, 404 on a missing product, 403 for a non-owner, then field updates with
the image precedence of lines 252-258 (explicit reference wins, else the
regenerate flag re-derives from the just-assigned name, else keep). -/
def edit_product (db : DB) (requester : User) (product_id : Nat)
    (name description : String) (quantity : Int) (price : ℚ)
    (new_image_url : String) (regenerate_ai : Bool) : Except Err DB :=
  if requester.role ≠ "farmer" then .error .authorization
  else match findProduct db product_id with
  | none => .error .notFound
  | some product =>
    if product.farmerId ≠ requester.id then .error .authorization
    else
      let name := (stripStr name)
      let description := (stripStr description)
      let new_image_url := (stripStr new_image_url)
      let image_url :=
        if new_image_url ≠ "" then new_image_url
        else if regenerate_ai then generate_product_image_url name
        else product.imageUrl
      let products2 := updateBy (fun x => x.id == product_id)
        (fun x =>
          { x with name := name, description := description,
                   quantity := quantity, price := price, imageUrl := image_url })
        db.products
      .ok { db with products := products2 }

/-- Model of the delete_product POST handler (src/app.py lines 265-274). -/
def delete_product (db : DB) (requester : User) (product_id : Nat) :
    Except Err DB :=
  if requester.role ≠ "farmer" then .error .authorization
  else match findProduct db product_id with
  | none => .error .notFound
  | some product =>
    if product.farmerId ≠ requester.id then .error .authorization
    else .ok { db with products := db.products.filter (fun x => x.id != product_id) }

/-- Model of the order_product POST handler (src/app.py lines 290-312):
404 on a missing product, only customers may order, quantity must be
positive and at most the current stock; on success the order row and the
stock decrement are committed together in one new state. -/
def order_product (db : DB) (requester : User) (product_id : Nat)
    (qty : Int) : Except Err DB :=
  match findProduct db product_id with
  | none => .error .notFound
  | some product =>
    if requester.role ≠ "customer" then .error .authorization
    else if qty ≤ 0 then .error .validation
    else if product.quantity < qty then .error .insufficientStock
    else
      let total : ℚ := (qty : ℚ) * product.price
      let order : Order :=
        { id := db.nextOrderId, customerId := requester.id,
          productId := product.id, quantity := qty, totalPrice := total,
          isNew := true }
      .ok { db with
        products := updateBy (fun x => x.id == product_id)
          (fun x => { x with quantity := x.quantity - qty }) db.products,
        orders := db.orders ++ [order],
        nextOrderId := db.nextOrderId + 1 }

/-- The join of lines 196-199 and 210-213: does the order reference a
product owned by the given farmer? -/
def orderTargetsFarmer (db : DB) (farmer_id : Nat) (o : Order) : Bool :=
  db.products.any (fun p => p.id == o.productId && p.farmerId == farmer_id)

/-- Model of the side effect of farmer_dashboard (src/app.py lines 196-204):
clear is_new on every new order against the products of the given farmer. -/
def markSeen (db : DB) (farmer_id : Nat) : DB :=
  { db with orders := db.orders.map (fun o =>
      if o.isNew && orderTargetsFarmer db farmer_id o then
        { o with isNew := false }
      else o) }

/-- Model of new_orders_count (src/app.py lines 207-214). -/
def newOrdersCount (db : DB) (farmer_id : Nat) : Nat :=
  (db.orders.filter (fun o => o.isNew && orderTargetsFarmer db farmer_id o)).length

/-- Model of the admin_edit_user POST handler (src/app.py lines 342-360):
admin role gate, 404 on a missing user, the primordial account (username
admin) is rejected before any mutation, otherwise all listed fields are
overwritten and the password only when the form value is non-empty. -/
def admin_edit_user (db : DB) (requester : User) (user_id : Nat)
    (name username contact_number role new_password : String) :
    Except Err DB :=
  if requester.role ≠ "admin" then .error .authorization
  else match findUserById db user_id with
  | none => .error .notFound
  | some target =>
    if target.username = "admin" then .error .protectedAccount
    else
      let users2 := updateBy (fun u => u.id == user_id)
        (fun u =>
          { u with name := (stripStr name), username := (stripStr username),
                   contactNumber := (stripStr contact_number), role := role,
                   passwordHash := if new_password ≠ "" then
                       generatePasswordHash new_password
                     else u.passwordHash })
        db.users
      .ok { db with users := users2 }

/-- Model of create_demo_data (src/app.py lines 369-400): a no-op whenever
any user row exists, otherwise the fixed three users, three products and
one order are inserted. -/
def create_demo_data (db : DB) : DB :=
  if db.users ≠ [] then db
  else
    let admin : User :=
      { id := db.nextUserId, username := "admin",
        passwordHash := generatePasswordHash "123", role := "admin",
        name := "System Admin", contactNumber := "0000000000" }
    let farmer : User :=
      { id := db.nextUserId + 1, username := "farmer1",
        passwordHash := generatePasswordHash "farmerpass", role := "farmer",
        name := "Alice Farmer", contactNumber := "9876543210" }
    let customer : User :=
      { id := db.nextUserId + 2, username := "cust1",
        passwordHash := generatePasswordHash "custpass", role := "customer",
        name := "Bob Customer", contactNumber := "9998887776" }
    let p1 : Product :=
      { id := db.nextProductId, farmerId := farmer.id, name := "Tomatoes",
        description := "Fresh red tomatoes", quantity := 100, price := 30,
        imageUrl := generate_product_image_url "Tomatoes" }
    let p2 : Product :=
      { id := db.nextProductId + 1, farmerId := farmer.id, name := "Spinach",
        description := "Leafy spinach", quantity := 50, price := 20,
        imageUrl := generate_product_image_url "Spinach" }
    let p3 : Product :=
      { id := db.nextProductId + 2, farmerId := farmer.id, name := "Cabbage",
        description := "Crisp green cabbage", quantity := 40, price := 25,
        imageUrl := generate_product_image_url "Cabbage" }
    let o1 : Order :=
      { id := db.nextOrderId, customerId := customer.id, productId := p1.id,
        quantity := 5, totalPrice := 150, isNew := false }
    { users := db.users ++ [admin, farmer, customer],
      products := db.products ++ [p1, p2, p3],
      orders := db.orders ++ [o1],
      nextUserId := db.nextUserId + 3,
      nextProductId := db.nextProductId + 3,
      nextOrderId := db.nextOrderId + 1 }

/-- The handler boundary: a failing operation flashes and redirects without
committing, so the state that persists is the original one. -/
def runOp (db : DB) (r : Except Err DB) : DB :=
  match r with
  | .ok db2 => db2
  | .error _ => db

/-- One PlaceOrder request (requester, product id, quantity) at the handler
boundary. -/
def placeOrderStep (db : DB) (c : User × Nat × Int) : DB :=
  runOp db (order_product db c.1 c.2.1 c.2.2)

/-- The quantity column of the product row with the given id. -/
def productQuantity (db : DB) (i : Nat) : Option Int :=
  (findProduct db i).map Product.quantity

/-- Spec section 3 invariant: no product row has a negative quantity. -/
def nonNegQuantities (db : DB) : Prop :=
  ∀ p ∈ db.products, 0 ≤ p.quantity

/-- Primary-key semantics: product ids identify rows. -/
def uniqueProductIds (db : DB) : Prop :=
  ∀ x ∈ db.products, ∀ y ∈ db.products, x.id = y.id → x = y

/-- The unique constraint on the username column. -/
def uniqueUsernames (db : DB) : Prop :=
  db.users.Pairwise (fun a b => a.username ≠ b.username)

instance (db : DB) : Decidable (nonNegQuantities db) := by
  unfold nonNegQuantities; infer_instance

instance (db : DB) : Decidable (uniqueProductIds db) := by
  unfold uniqueProductIds; infer_instance

instance (db : DB) : Decidable (uniqueUsernames db) := by
  unfold uniqueUsernames; infer_instance

/-- Fixed demonstration state produced by seeding an empty database. -/
def demoDB : DB :=
  { users :=
      [{ id := 1, username := "admin", passwordHash := generatePasswordHash "123",
         role := "admin", name := "System Admin", contactNumber := "0000000000" },
       { id := 2, username := "farmer1", passwordHash := generatePasswordHash "farmerpass",
         role := "farmer", name := "Alice Farmer", contactNumber := "9876543210" },
       { id := 3, username := "cust1", passwordHash := generatePasswordHash "custpass",
         role := "customer", name := "Bob Customer", contactNumber := "9998887776" }],
    products :=
      [{ id := 1, farmerId := 2, name := "Tomatoes", description := "Fresh red tomatoes",
         quantity := 100, price := 30, imageUrl := "/static/images/ai_tomatoes.jpg" },
       { id := 2, farmerId := 2, name := "Spinach", description := "Leafy spinach",
         quantity := 50, price := 20, imageUrl := "/static/images/ai_spinach.jpg" },
       { id := 3, farmerId := 2, name := "Cabbage", description := "Crisp green cabbage",
         quantity := 40, price := 25, imageUrl := "/static/images/ai_cabbage.jpg" }],
    orders :=
      [{ id := 1, customerId := 3, productId := 1, quantity := 5,
         totalPrice := 150, isNew := false }],
    nextUserId := 4, nextProductId := 4, nextOrderId := 2 }

/-- The demonstration customer identity, used as a concrete requester. -/
def demoCustomer : User :=
  { id := 3, username := "cust1", passwordHash := generatePasswordHash "custpass",
    role := "customer", name := "Bob Customer", contactNumber := "9998887776" }

/-- The demonstration farmer identity, used as a concrete requester. -/
def demoFarmer : User :=
  { id := 2, username := "farmer1", passwordHash := generatePasswordHash "farmerpass",
    role := "farmer", name := "Alice Farmer", contactNumber := "9876543210" }

/-- The demonstration admin identity, used as a concrete requester. -/
def demoAdmin : User :=
  { id := 1, username := "admin", passwordHash := generatePasswordHash "123",
    role := "admin", name := "System Admin", contactNumber := "0000000000" }

theorem find?_updateBy_self (p : α → Bool) (f : α → α) (l : List α)
    (hf : ∀ x, p (f x) = p x) :
    (updateBy p f l).find? p = (l.find? p).map f := by
  induction l with
  | nil => rfl
  | cons a t ih =>
    rw [show updateBy p f (a :: t) = (if p a then f a else a) :: updateBy p f t from rfl,
        List.find?_cons, List.find?_cons]
    by_cases h : p a
    · simp [h, hf]
    · simp only [Bool.not_eq_true] at h
      simp [h, ih]

theorem find?_updateBy_other (p q : α → Bool) (f : α → α) (l : List α)
    (hq : ∀ x, q (f x) = q x) (hpq : ∀ x, q x = true → p x = false) :
    (updateBy p f l).find? q = l.find? q := by
  induction l with
  | nil => rfl
  | cons a t ih =>
    rw [show updateBy p f (a :: t) = (if p a then f a else a) :: updateBy p f t from rfl,
        List.find?_cons, List.find?_cons]
    by_cases h : q a
    · have hpa : p a = false := hpq a h
      simp [hpa, h]
    · simp only [Bool.not_eq_true] at h
      have hga : q (if p a then f a else a) = false := by
        by_cases hp : p a <;> simp [hp, hq, h]
      simp [hga, h, ih]

/-- C1: a customer order for 0 < q of available stock succeeds, and the one
new state carries both effects at once: exactly one appended order row,
marked new, with total price q times the current unit price, and the stock
of exactly that product decremented by q (other products untouched). -/
theorem order_product_success_commits_order_and_decrement
    (db : DB) (u : User) (p : Product) (q : Int)
    (hu : u.role = "customer") (hp : findProduct db p.id = some p)
    (h0 : 0 < q) (hle : q ≤ p.quantity) :
    ∃ db2, order_product db u p.id q = Except.ok db2 ∧
      db2.orders = db.orders ++
        [{ id := db.nextOrderId, customerId := u.id, productId := p.id,
           quantity := q, totalPrice := (q : ℚ) * p.price, isNew := true }] ∧
      productQuantity db2 p.id = some (p.quantity - q) ∧
      (∀ j, j ≠ p.id → productQuantity db2 j = productQuantity db j) ∧
      db2.users = db.users := by
  have key : order_product db u p.id q = Except.ok { db with
      products := updateBy (fun x => x.id == p.id)
        (fun x => { x with quantity := x.quantity - q }) db.products,
      orders := db.orders ++
        [{ id := db.nextOrderId, customerId := u.id, productId := p.id,
           quantity := q, totalPrice := (q : ℚ) * p.price, isNew := true }],
      nextOrderId := db.nextOrderId + 1 } := by
    unfold order_product
    rw [hp]
    simp only [hu, ne_eq, not_true_eq_false, if_false,
      if_neg (not_le.mpr h0), if_neg (not_lt.mpr hle)]
  refine ⟨_, key, rfl, ?_, ?_, rfl⟩
  · unfold productQuantity findProduct
    rw [find?_updateBy_self (fun x => x.id == p.id)
      (fun x => { x with quantity := x.quantity - q }) db.products (fun x => rfl)]
    rw [show db.products.find? (fun x => x.id == p.id) = some p from hp]
    rfl
  · intro j hj
    unfold productQuantity findProduct
    have hother : (updateBy (fun x => x.id == p.id)
        (fun x => { x with quantity := x.quantity - q }) db.products).find?
          (fun x => x.id == j) = db.products.find? (fun x => x.id == j) := by
      apply find?_updateBy_other
      · exact fun x => rfl
      · intro x hx
        have hxj : x.id = j := by simpa [beq_iff_eq] using hx
        simp [hxj, hj, beq_eq_false_iff_ne]
    exact congrArg (Option.map Product.quantity) hother

/-- The demonstration Tomatoes product row, the concrete input for the C1
witness. -/
def tomatoDemo : Product :=
  { id := 1, farmerId := 2, name := "Tomatoes", description := "Fresh red tomatoes",
    quantity := 100, price := 30, imageUrl := "/static/images/ai_tomatoes.jpg" }

/-- C1 witness: the success theorem applied to the seeded state, ordering
five tomatoes. -/
theorem order_product_success_commits_order_and_decrement_witness :
    ∃ db2, order_product demoDB demoCustomer tomatoDemo.id 5 = Except.ok db2 ∧
      db2.orders = demoDB.orders ++
        [{ id := demoDB.nextOrderId, customerId := demoCustomer.id,
           productId := tomatoDemo.id, quantity := 5,
           totalPrice := ((5 : Int) : ℚ) * tomatoDemo.price, isNew := true }] ∧
      productQuantity db2 tomatoDemo.id = some (tomatoDemo.quantity - 5) ∧
      (∀ j, j ≠ tomatoDemo.id →
        productQuantity db2 j = productQuantity demoDB j) ∧
      db2.users = demoDB.users :=
  order_product_success_commits_order_and_decrement demoDB demoCustomer
    tomatoDemo 5 rfl rfl (by decide) (by decide)

/-- C2: with non-negative current stock, ordering more than the stock is
rejected as insufficient stock, and ordering a non-positive quantity is
rejected as invalid; in both cases the committed state is the original one,
so the stock and the order ledger are unchanged. -/
theorem order_product_rejections_leave_state_unchanged
    (db : DB) (u : User) (p : Product) (q : Int)
    (hu : u.role = "customer") (hp : findProduct db p.id = some p)
    (hnn : 0 ≤ p.quantity) :
    (p.quantity < q →
      order_product db u p.id q = Except.error Err.insufficientStock ∧
      runOp db (order_product db u p.id q) = db) ∧
    (q ≤ 0 →
      order_product db u p.id q = Except.error Err.validation ∧
      runOp db (order_product db u p.id q) = db) := by
  constructor
  · intro hlt
    have hq0 : ¬ q ≤ 0 := by omega
    have key : order_product db u p.id q = Except.error Err.insufficientStock := by
      unfold order_product
      rw [hp]
      simp only [hu, ne_eq, not_true_eq_false, if_false, if_neg hq0, if_pos hlt]
    exact ⟨key, by rw [key]; rfl⟩
  · intro hq
    have key : order_product db u p.id q = Except.error Err.validation := by
      unfold order_product
      rw [hp]
      simp only [hu, ne_eq, not_true_eq_false, if_false, if_pos hq]
    exact ⟨key, by rw [key]; rfl⟩

/-- C2 witness: on the seeded state an order of 1000 tomatoes is rejected
for stock and an order of 0 tomatoes is rejected as invalid, each leaving
the state unchanged. -/
theorem order_product_rejections_leave_state_unchanged_witness :
    (order_product demoDB demoCustomer tomatoDemo.id 1000 =
        Except.error Err.insufficientStock ∧
      runOp demoDB (order_product demoDB demoCustomer tomatoDemo.id 1000) = demoDB) ∧
    (order_product demoDB demoCustomer tomatoDemo.id 0 =
        Except.error Err.validation ∧
      runOp demoDB (order_product demoDB demoCustomer tomatoDemo.id 0) = demoDB) :=
  ⟨(order_product_rejections_leave_state_unchanged demoDB demoCustomer
      tomatoDemo 1000 rfl rfl (by decide)).1 (by decide),
   (order_product_rejections_leave_state_unchanged demoDB demoCustomer
      tomatoDemo 0 rfl rfl (by decide)).2 (by decide)⟩

/-- Every successful order decomposes into the stock check having passed
and the committed per-product decrement. -/
theorem order_product_ok_shape (db : DB) (u : User) (pid : Nat) (q : Int)
    (db2 : DB) (h : order_product db u pid q = Except.ok db2) :
    ∃ p, findProduct db pid = some p ∧ 0 < q ∧ q ≤ p.quantity ∧
      db2.products = updateBy (fun x => x.id == pid)
        (fun x => { x with quantity := x.quantity - q }) db.products := by
  cases hf : findProduct db pid with
  | none =>
    simp only [order_product, hf] at h
    exact Except.noConfusion h
  | some p =>
    simp only [order_product, hf] at h
    split_ifs at h with h1 h2 h3
    refine ⟨p, rfl, by omega, by omega, ?_⟩
    rw [Except.ok.injEq] at h
    rw [← h]

/-- One handler-level PlaceOrder step keeps product ids unique and keeps
every stock quantity non-negative. -/
theorem placeOrderStep_preserves (db : DB) (c : User × Nat × Int)
    (hids : uniqueProductIds db) (hnn : nonNegQuantities db) :
    uniqueProductIds (placeOrderStep db c) ∧
      nonNegQuantities (placeOrderStep db c) := by
  cases hr : order_product db c.1 c.2.1 c.2.2 with
  | error e =>
    have hstep : placeOrderStep db c = db := by
      unfold placeOrderStep; rw [hr]; rfl
    rw [hstep]; exact ⟨hids, hnn⟩
  | ok db2 =>
    have hstep : placeOrderStep db c = db2 := by
      unfold placeOrderStep; rw [hr]; rfl
    obtain ⟨p, hf, hq0, hqle, hprod⟩ := order_product_ok_shape _ _ _ _ _ hr
    have hmem : p ∈ db.products := List.mem_of_find?_eq_some hf
    have hpid : p.id = c.2.1 := by
      simpa [beq_iff_eq] using List.find?_some hf
    have idkeep : ∀ z : Product,
        ((if z.id == c.2.1 then
            ({ z with quantity := z.quantity - c.2.2 } : Product)
          else z) : Product).id = z.id := by
      intro z; by_cases hz : z.id == c.2.1 <;> simp [hz]
    rw [hstep]
    constructor
    · intro x hx y hy hxy
      rw [hprod] at hx hy
      simp only [updateBy] at hx hy
      obtain ⟨x0, hx0, rfl⟩ := List.mem_map.mp hx
      obtain ⟨y0, hy0, rfl⟩ := List.mem_map.mp hy
      rw [idkeep x0, idkeep y0] at hxy
      rw [hids x0 hx0 y0 hy0 hxy]
    · intro y hy
      rw [hprod] at hy
      simp only [updateBy] at hy
      obtain ⟨y0, hy0, rfl⟩ := List.mem_map.mp hy
      by_cases hz : y0.id == c.2.1
      · have hy0p : y0 = p := by
          apply hids y0 hy0 p hmem
          rw [hpid]
          simpa [beq_iff_eq] using hz
        rw [if_pos hz, hy0p]
        have := hnn p hmem
        simp only []
        omega
      · rw [if_neg hz]
        exact hnn y0 hy0

/-- State reached from the seeded database by the owning farmer editing the
Tomatoes row with quantity -1, a request the handler accepts since neither
add_product nor edit_product validates the quantity field. -/
def negQtyState : DB :=
  runOp demoDB
    (edit_product demoDB demoFarmer 1 "Tomatoes" "Fresh red tomatoes" (-1) 30 "" false)

/-- C3 counterexample: the owning farmer submits the edit form with
quantity -1; the handler accepts it and the stored quantity of product 1
becomes negative, so the invariant does not hold over EditProduct. -/
theorem edit_product_drives_quantity_negative :
    edit_product demoDB demoFarmer 1 "Tomatoes" "Fresh red tomatoes" (-1) 30 "" false =
      Except.ok negQtyState ∧
    productQuantity negQtyState 1 = some (-1) ∧
    ¬ nonNegQuantities negQtyState := ⟨rfl, by decide, by decide⟩

/-- C3 amended: restricted to PlaceOrder, the invariant is real: from any
state with unique product ids and non-negative quantities, no sequence of
PlaceOrder requests (successful or rejected) drives any quantity below
zero.  AddProduct and EditProduct are excluded because they store the form
quantity unvalidated. -/
theorem placeOrder_sequence_preserves_nonneg (calls : List (User × Nat × Int))
    (db : DB) (hids : uniqueProductIds db) (hnn : nonNegQuantities db) :
    nonNegQuantities (calls.foldl placeOrderStep db) := by
  induction calls generalizing db with
  | nil => exact hnn
  | cons c cs ih =>
    have h := placeOrderStep_preserves db c hids hnn
    exact ih (placeOrderStep db c) h.1 h.2

/-- C3 witness: a burst of orders against the seeded state, including two
that together would overdraw the Tomatoes stock, leaves every quantity
non-negative. -/
theorem placeOrder_sequence_preserves_nonneg_witness :
    uniqueProductIds demoDB ∧ nonNegQuantities demoDB ∧
    nonNegQuantities (List.foldl placeOrderStep demoDB
      [(demoCustomer, 1, 60), (demoCustomer, 1, 60), (demoCustomer, 3, 40)]) :=
  ⟨by decide, by decide,
   placeOrder_sequence_preserves_nonneg
     [(demoCustomer, 1, 60), (demoCustomer, 1, 60), (demoCustomer, 3, 40)]
     demoDB (by decide) (by decide)⟩

/-- C4: an EditProduct or DeleteProduct request whose requester is not the
owning farmer is rejected with the 403 authorization failure, and the
committed state is the original one, so the catalog entry is untouched. -/
theorem nonowner_edit_delete_rejected (db : DB) (u : User) (p : Product)
    (nm ds : String) (qn : Int) (pr : ℚ) (img : String) (rg : Bool)
    (hp : findProduct db p.id = some p) (hne : p.farmerId ≠ u.id) :
    (edit_product db u p.id nm ds qn pr img rg = Except.error Err.authorization ∧
      runOp db (edit_product db u p.id nm ds qn pr img rg) = db) ∧
    (delete_product db u p.id = Except.error Err.authorization ∧
      runOp db (delete_product db u p.id) = db) := by
  by_cases hrole : u.role = "farmer"
  · have he : edit_product db u p.id nm ds qn pr img rg =
        Except.error Err.authorization := by
      unfold edit_product
      rw [hp]
      simp only [hrole, ne_eq, not_true_eq_false, if_false, if_pos hne]
    have hd : delete_product db u p.id = Except.error Err.authorization := by
      unfold delete_product
      rw [hp]
      simp only [hrole, ne_eq, not_true_eq_false, if_false, if_pos hne]
    exact ⟨⟨he, by rw [he]; rfl⟩, ⟨hd, by rw [hd]; rfl⟩⟩
  · have he : edit_product db u p.id nm ds qn pr img rg =
        Except.error Err.authorization := by
      unfold edit_product
      rw [if_pos hrole]
    have hd : delete_product db u p.id = Except.error Err.authorization := by
      unfold delete_product
      rw [if_pos hrole]
    exact ⟨⟨he, by rw [he]; rfl⟩, ⟨hd, by rw [hd]; rfl⟩⟩

/-- C4 witness: the demonstration customer (id 3) attempting to edit or
delete product 1, owned by farmer id 2, is rejected and the state kept. -/
theorem nonowner_edit_delete_rejected_witness :
    (edit_product demoDB demoCustomer tomatoDemo.id "X" "d" 7 1 "" false =
        Except.error Err.authorization ∧
      runOp demoDB (edit_product demoDB demoCustomer tomatoDemo.id "X" "d" 7 1 "" false) =
        demoDB) ∧
    (delete_product demoDB demoCustomer tomatoDemo.id = Except.error Err.authorization ∧
      runOp demoDB (delete_product demoDB demoCustomer tomatoDemo.id) = demoDB) :=
  nonowner_edit_delete_rejected demoDB demoCustomer tomatoDemo "X" "d" 7 1 ""
    false rfl (by decide)

/-- C5: after a successful registration of a username, a second
otherwise-valid registration of the same username is rejected as a
duplicate (adding no identity, since a rejection commits nothing), and
registration preserves the pairwise distinctness of usernames. -/
theorem duplicate_registration_rejected (db db2 : DB)
    (un pw role nm ct pw2 role2 nm2 ct2 : String)
    (h : register db un pw role nm ct = Except.ok db2)
    (hpw2 : pw2 ≠ "") (hrole2 : role2 = "farmer" ∨ role2 = "customer")
    (hnm2 : (stripStr nm2) ≠ "") (hct2 : (stripStr ct2) ≠ "") :
    register db2 un pw2 role2 nm2 ct2 = Except.error Err.duplicateUsername ∧
    (uniqueUsernames db → uniqueUsernames db2) := by
  simp only [register] at h
  split_ifs at h with h1 h2
  rw [Except.ok.injEq] at h
  push_neg at h1
  obtain ⟨hun, _hpw, _hrole, _hnm, _hct⟩ := h1
  have husers : db2.users = db.users ++
      [{ id := db.nextUserId, username := (stripStr un),
         passwordHash := generatePasswordHash pw, role := role,
         name := (stripStr nm), contactNumber := (stripStr ct) }] := by
    rw [← h]
  have hcond : ¬((stripStr un) = "" ∨ pw2 = "" ∨
      (role2 ≠ "farmer" ∧ role2 ≠ "customer") ∨ (stripStr nm2) = "" ∨
      (stripStr ct2) = "") := by
    push_neg
    refine ⟨hun, hpw2, ?_, hnm2, hct2⟩
    intro hf
    rcases hrole2 with h9 | h9
    · exact absurd h9 hf
    · exact h9
  have hdup : (db2.users.any fun u => u.username == (stripStr un)) = true := by
    rw [husers, List.any_append]
    simp
  constructor
  · simp only [register]
    rw [if_neg hcond, if_pos hdup]
  · intro huniq
    rw [uniqueUsernames, husers, List.pairwise_append]
    refine ⟨huniq, by simp, ?_⟩
    intro a ha b hb
    rw [List.mem_singleton] at hb
    rw [hb]
    intro hcontra
    apply h2
    rw [List.any_eq_true]
    exact ⟨a, ha, by simp [hcontra]⟩

/-- The state after registering alice on the empty database, the concrete
input of the C5 witness. -/
def aliceDB : DB :=
  runOp emptyDB (register emptyDB "alice" "pw" "farmer" "Alice" "123")

/-- C5 witness: registering alice twice from the empty database; the second
attempt is rejected as a duplicate and uniqueness of usernames holds. -/
theorem duplicate_registration_rejected_witness :
    register aliceDB "alice" "pw2" "customer" "Al" "456" =
      Except.error Err.duplicateUsername ∧
    (uniqueUsernames emptyDB → uniqueUsernames aliceDB) :=
  duplicate_registration_rejected emptyDB aliceDB "alice" "pw" "farmer"
    "Alice" "123" "pw2" "customer" "Al" "456" rfl (by decide) (Or.inr rfl)
    (by decide) (by decide)

theorem orderTargetsFarmer_markSeen (db : DB) (fid gid : Nat) (o : Order) :
    orderTargetsFarmer (markSeen db fid) gid o = orderTargetsFarmer db gid o := rfl

/-- C6: one dashboard view clears every new order of that farmer, so the
polling count drops to zero; a second view changes nothing (idempotence);
and any order that does not reference one of that farmer's products is left
exactly as it was, position by position. -/
theorem markSeen_clears_count_idempotent_and_local (db : DB) (fid : Nat) :
    newOrdersCount (markSeen db fid) fid = 0 ∧
    markSeen (markSeen db fid) fid = markSeen db fid ∧
    ∀ i : Nat, ∀ o : Order, db.orders[i]? = some o →
      orderTargetsFarmer db fid o = false →
      (markSeen db fid).orders[i]? = some o := by
  refine ⟨?_, ?_, ?_⟩
  · rw [newOrdersCount, List.length_eq_zero, List.filter_eq_nil_iff]
    intro a ha
    rw [show (markSeen db fid).orders = db.orders.map (fun o =>
        if o.isNew && orderTargetsFarmer db fid o then { o with isNew := false }
        else o) from rfl] at ha
    obtain ⟨o, ho, rfl⟩ := List.mem_map.mp ha
    rw [orderTargetsFarmer_markSeen]
    by_cases hN : o.isNew && orderTargetsFarmer db fid o
    · rw [if_pos hN]
      simp
    · rw [if_neg hN]
      exact hN
  · show ({ markSeen db fid with orders := (markSeen db fid).orders.map (fun o =>
        if o.isNew && orderTargetsFarmer (markSeen db fid) fid o then
          { o with isNew := false } else o) } : DB) = markSeen db fid
    have horders : (markSeen db fid).orders.map (fun o =>
        if o.isNew && orderTargetsFarmer (markSeen db fid) fid o then
          { o with isNew := false } else o) = (markSeen db fid).orders := by
      rw [show (markSeen db fid).orders = db.orders.map (fun o =>
          if o.isNew && orderTargetsFarmer db fid o then { o with isNew := false }
          else o) from rfl]
      rw [List.map_map]
      apply List.map_congr_left
      intro o _
      by_cases hN : o.isNew && orderTargetsFarmer db fid o
      · rw [Function.comp_apply, if_pos hN]
        simp [orderTargetsFarmer_markSeen]
      · rw [Function.comp_apply, if_neg hN]
        simp only [orderTargetsFarmer_markSeen]
        rw [if_neg hN]
    rw [horders]
  · intro i o hi ht
    rw [show (markSeen db fid).orders = db.orders.map (fun o =>
        if o.isNew && orderTargetsFarmer db fid o then { o with isNew := false }
        else o) from rfl]
    rw [List.getElem?_map, hi]
    simp [ht]

/-- C6 witness: on the state holding one new tomato order against farmer 2,
the dashboard view zeroes the count and a repeat view is a no-op. -/
theorem markSeen_clears_count_idempotent_and_local_witness :
    newOrdersCount (markSeen (placeOrderStep demoDB (demoCustomer, 1, 5)) 2) 2 = 0 ∧
    markSeen (markSeen (placeOrderStep demoDB (demoCustomer, 1, 5)) 2) 2 =
      markSeen (placeOrderStep demoDB (demoCustomer, 1, 5)) 2 :=
  ⟨(markSeen_clears_count_idempotent_and_local
      (placeOrderStep demoDB (demoCustomer, 1, 5)) 2).1,
   (markSeen_clears_count_idempotent_and_local
      (placeOrderStep demoDB (demoCustomer, 1, 5)) 2).2.1⟩

/-- C7: the image reference is a pure function of the product name with the
fixed branch order tomato, spinach, cabbage, default, matched
case-insensitively; Fresh Tomatoes takes the tomato reference and Quinoa
the default; and add_product applies the derivation exactly when the
supplied reference is empty, storing the supplied one otherwise. -/
theorem image_reference_derivation :
    (∀ nm, containsSub (lowerStr nm) "tomato" = true →
      generate_product_image_url nm = "/static/images/ai_tomatoes.jpg") ∧
    (∀ nm, containsSub (lowerStr nm) "tomato" = false →
      containsSub (lowerStr nm) "spinach" = true →
      generate_product_image_url nm = "/static/images/ai_spinach.jpg") ∧
    (∀ nm, containsSub (lowerStr nm) "tomato" = false →
      containsSub (lowerStr nm) "spinach" = false →
      containsSub (lowerStr nm) "cabbage" = true →
      generate_product_image_url nm = "/static/images/ai_cabbage.jpg") ∧
    (∀ nm, containsSub (lowerStr nm) "tomato" = false →
      containsSub (lowerStr nm) "spinach" = false →
      containsSub (lowerStr nm) "cabbage" = false →
      generate_product_image_url nm = "/static/images/default_ai_product.jpg") ∧
    generate_product_image_url "Fresh Tomatoes" = "/static/images/ai_tomatoes.jpg" ∧
    generate_product_image_url "Quinoa" = "/static/images/default_ai_product.jpg" ∧
    (∀ db u nm ds qn pr, u.role = "farmer" → stripStr nm ≠ "" →
      add_product db u nm ds qn pr "" = Except.ok { db with
        products := db.products ++
          [⟨db.nextProductId, u.id, stripStr nm, stripStr ds, qn, pr,
            generate_product_image_url (stripStr nm)⟩],
        nextProductId := db.nextProductId + 1 }) ∧
    (∀ db u nm ds qn pr img, u.role = "farmer" → stripStr nm ≠ "" →
      stripStr img ≠ "" →
      add_product db u nm ds qn pr img = Except.ok { db with
        products := db.products ++
          [⟨db.nextProductId, u.id, stripStr nm, stripStr ds, qn, pr,
            stripStr img⟩],
        nextProductId := db.nextProductId + 1 }) := by
  refine ⟨?_, ?_, ?_, ?_, rfl, rfl, ?_, ?_⟩
  · intro nm h1
    simp [generate_product_image_url, h1]
  · intro nm h1 h2
    simp [generate_product_image_url, h1, h2]
  · intro nm h1 h2 h3
    simp [generate_product_image_url, h1, h2, h3]
  · intro nm h1 h2 h3
    simp [generate_product_image_url, h1, h2, h3]
  · intro db u nm ds qn pr hu hnm
    simp only [add_product, hu, ne_eq, not_true_eq_false, if_false, if_neg hnm]
    rw [show stripStr "" = "" from rfl, if_pos rfl]
  · intro db u nm ds qn pr img hu hnm himg
    simp only [add_product, hu, ne_eq, not_true_eq_false, if_false,
      if_neg hnm, if_neg himg]

/-- C7 witness: the derivation theorem applied to the two named inputs and
to concrete add_product calls with and without an explicit reference. -/
theorem image_reference_derivation_witness :
    containsSub (lowerStr "Fresh Tomatoes") "tomato" = true ∧
    generate_product_image_url "Fresh Tomatoes" = "/static/images/ai_tomatoes.jpg" ∧
    add_product emptyDB demoFarmer "Quinoa" "grain" 5 10 "" = Except.ok { emptyDB with
      products := [⟨1, 2, "Quinoa", "grain", 5, 10,
        "/static/images/default_ai_product.jpg"⟩],
      nextProductId := 2 } ∧
    add_product emptyDB demoFarmer "Quinoa" "grain" 5 10 "/pic.jpg" =
      Except.ok { emptyDB with
        products := [⟨1, 2, "Quinoa", "grain", 5, 10, "/pic.jpg"⟩],
        nextProductId := 2 } :=
  ⟨by decide,
   image_reference_derivation.1 "Fresh Tomatoes" (by decide),
   by
    have h := image_reference_derivation.2.2.2.2.2.2.1 emptyDB demoFarmer
      "Quinoa" "grain" 5 10 rfl (by decide)
    exact h,
   by
    have h := image_reference_derivation.2.2.2.2.2.2.2 emptyDB demoFarmer
      "Quinoa" "grain" 5 10 "/pic.jpg" rfl (by decide) (by decide)
    exact h⟩

/-- C8: an admin edit aimed at the primordial admin account is rejected
with the protected-account failure and commits nothing, while an edit aimed
at any other identity succeeds and overwrites name, username, contact, role
and, when a new password is supplied, the password hash. -/
theorem admin_edit_user_protects_primordial (db : DB) (a t : User) (uid : Nat)
    (nm un ct rl pw : String)
    (ha : a.role = "admin") (ht : findUserById db uid = some t) :
    (t.username = "admin" →
      admin_edit_user db a uid nm un ct rl pw = Except.error Err.protectedAccount ∧
      runOp db (admin_edit_user db a uid nm un ct rl pw) = db) ∧
    (t.username ≠ "admin" →
      ∃ db2, admin_edit_user db a uid nm un ct rl pw = Except.ok db2 ∧
        findUserById db2 uid = some
          { t with name := stripStr nm, username := stripStr un,
                   contactNumber := stripStr ct, role := rl,
                   passwordHash := if pw ≠ "" then generatePasswordHash pw
                     else t.passwordHash } ∧
        db2.products = db.products ∧ db2.orders = db.orders) := by
  constructor
  · intro hadm
    have key : admin_edit_user db a uid nm un ct rl pw =
        Except.error Err.protectedAccount := by
      unfold admin_edit_user
      rw [ht]
      simp only [ha, ne_eq, not_true_eq_false, if_false, if_pos hadm]
    exact ⟨key, by rw [key]; rfl⟩
  · intro hadm
    have key : admin_edit_user db a uid nm un ct rl pw = Except.ok { db with
        users := updateBy (fun u => u.id == uid)
          (fun u =>
            { u with name := stripStr nm, username := stripStr un,
                     contactNumber := stripStr ct, role := rl,
                     passwordHash := if pw ≠ "" then generatePasswordHash pw
                       else u.passwordHash }) db.users } := by
      unfold admin_edit_user
      rw [ht]
      simp only [ha, ne_eq, not_true_eq_false, if_false, if_neg hadm]
    refine ⟨_, key, ?_, rfl, rfl⟩
    unfold findUserById
    rw [find?_updateBy_self (fun u => u.id == uid)
      (fun u =>
        { u with name := stripStr nm, username := stripStr un,
                 contactNumber := stripStr ct, role := rl,
                 passwordHash := if pw ≠ "" then generatePasswordHash pw
                   else u.passwordHash }) db.users (fun u => rfl)]
    rw [show db.users.find? (fun u => u.id == uid) = some t from ht]
    rfl

/-- C8 witness: on the seeded state, editing user 1 (username admin) is
rejected, and editing user 2 succeeds with the fields overwritten. -/
theorem admin_edit_user_protects_primordial_witness :
    (admin_edit_user demoDB demoAdmin 1 "N" "f9" "5" "farmer" "" =
        Except.error Err.protectedAccount ∧
      runOp demoDB (admin_edit_user demoDB demoAdmin 1 "N" "f9" "5" "farmer" "") =
        demoDB) ∧
    (∃ db2, admin_edit_user demoDB demoAdmin 2 "N" "f9" "5" "farmer" "pw9" =
        Except.ok db2 ∧
      findUserById db2 2 = some
        { demoFarmer with name := stripStr "N", username := stripStr "f9",
                          contactNumber := stripStr "5", role := "farmer",
                          passwordHash := if "pw9" ≠ "" then
                              generatePasswordHash "pw9"
                            else demoFarmer.passwordHash } ∧
      db2.products = demoDB.products ∧ db2.orders = demoDB.orders) :=
  ⟨(admin_edit_user_protects_primordial demoDB demoAdmin demoAdmin 1
      "N" "f9" "5" "farmer" "" rfl rfl).1 rfl,
   (admin_edit_user_protects_primordial demoDB demoAdmin demoFarmer 2
      "N" "f9" "5" "farmer" "pw9" rfl rfl).2 (by decide)⟩

/-- C9: seeding is skipped whenever any identity exists, and on the empty
state it produces exactly the fixed demonstration database: three
identities, one per role, three catalog entries and one order; running it
again on the seeded state changes nothing. -/
theorem create_demo_data_idempotent_and_seeds (db : DB) (h : db.users ≠ []) :
    create_demo_data db = db ∧
    create_demo_data emptyDB = demoDB ∧
    create_demo_data demoDB = demoDB ∧
    demoDB.users.map User.role = ["admin", "farmer", "customer"] ∧
    demoDB.users.map User.username = ["admin", "farmer1", "cust1"] ∧
    demoDB.products.length = 3 ∧
    demoDB.orders.length = 1 := by
  refine ⟨?_, by decide, by decide, rfl, rfl, rfl, rfl⟩
  unfold create_demo_data
  rw [if_pos h]

/-- C9 witness: the seeding theorem applied to the already-seeded state,
whose identity relation is non-empty. -/
theorem create_demo_data_idempotent_and_seeds_witness :
    demoDB.users ≠ [] ∧ create_demo_data demoDB = demoDB ∧
    create_demo_data emptyDB = demoDB :=
  ⟨by decide, (create_demo_data_idempotent_and_seeds demoDB (by decide)).1,
   (create_demo_data_idempotent_and_seeds demoDB (by decide)).2.1⟩

/-- C10: for the owning farmer, edit_product always succeeds and updates
name, description, quantity and price, while the stored image reference
follows the fixed precedence: a non-empty explicit reference wins whatever
the regenerate flag says; otherwise the set flag re-derives the reference
from the just-renamed product name; otherwise the old reference is kept.
Other products are untouched. -/
theorem edit_product_image_precedence (db : DB) (u : User) (p : Product)
    (nm ds : String) (qn : Int) (pr : ℚ) (img : String) (rg : Bool)
    (hu : u.role = "farmer") (hp : findProduct db p.id = some p)
    (hown : p.farmerId = u.id) :
    ∃ db2, edit_product db u p.id nm ds qn pr img rg = Except.ok db2 ∧
      findProduct db2 p.id = some
        { p with name := stripStr nm, description := stripStr ds,
                 quantity := qn, price := pr,
                 imageUrl :=
                   if stripStr img ≠ "" then stripStr img
                   else if rg then generate_product_image_url (stripStr nm)
                   else p.imageUrl } ∧
      (∀ j, j ≠ p.id → findProduct db2 j = findProduct db j) ∧
      db2.users = db.users ∧ db2.orders = db.orders := by
  have key : edit_product db u p.id nm ds qn pr img rg = Except.ok { db with
      products := updateBy (fun x => x.id == p.id)
        (fun x =>
          { x with name := stripStr nm, description := stripStr ds,
                   quantity := qn, price := pr,
                   imageUrl :=
                     if stripStr img ≠ "" then stripStr img
                     else if rg then generate_product_image_url (stripStr nm)
                     else p.imageUrl }) db.products } := by
    unfold edit_product
    rw [hp]
    simp only [hu, ne_eq, not_true_eq_false, if_false, hown,
      not_false_eq_true, if_neg]
  refine ⟨_, key, ?_, ?_, rfl, rfl⟩
  · unfold findProduct
    rw [find?_updateBy_self (fun x => x.id == p.id)
      (fun x =>
        { x with name := stripStr nm, description := stripStr ds,
                 quantity := qn, price := pr,
                 imageUrl :=
                   if stripStr img ≠ "" then stripStr img
                   else if rg then generate_product_image_url (stripStr nm)
                   else p.imageUrl }) db.products (fun x => rfl)]
    rw [show db.products.find? (fun x => x.id == p.id) = some p from hp]
    rfl
  · intro j hj
    unfold findProduct
    apply find?_updateBy_other
    · exact fun x => rfl
    · intro x hx
      have hxj : x.id = j := by simpa [beq_iff_eq] using hx
      simp [hxj, hj, beq_eq_false_iff_ne]

/-- C10 witness: the owning farmer renames product 3 to Spinach Mix with an
empty explicit reference and the regenerate flag set, so the stored
reference is re-derived from the new name. -/
theorem edit_product_image_precedence_witness :
    ∃ db2, edit_product demoDB demoFarmer 3 "Spinach Mix" "d" 7 12 "" true =
      Except.ok db2 ∧
      findProduct db2 3 = some
        { demoDB.products.getLast (by decide) with
            name := stripStr "Spinach Mix", description := stripStr "d",
            quantity := 7, price := 12,
            imageUrl :=
              if stripStr "" ≠ "" then stripStr ""
              else if true then generate_product_image_url (stripStr "Spinach Mix")
              else (demoDB.products.getLast (by decide)).imageUrl } ∧
      (∀ j, j ≠ 3 → findProduct db2 j = findProduct demoDB j) ∧
      db2.users = demoDB.users ∧ db2.orders = demoDB.orders :=
  edit_product_image_precedence demoDB demoFarmer
    (demoDB.products.getLast (by decide)) "Spinach Mix" "d" 7 12 "" true
    rfl (by decide) (by decide)

end FarmConnect
